import Mathlib

/-
Verification of the pagination-and-removal state machine of a React
posts viewer (src/src/App.jsx). The store keeps an ordered list of
posts and a 1-indexed page cursor; the calculator derives the total
page count, the effective page and the visible slice of six items.
-/

/-- Model of one post item. The fetch collaborator augments each
fetched record with an image URL keyed by its id; only the id takes
part in any state-machine decision. -/
structure Post where
  id : Int
  title : String
  body : String
  img : String
deriving Repr, DecidableEq

/-- State held by PostsProvider: the list of posts, the loading flag
and the current page cursor, exactly the three useState cells. -/
structure AppState where
  posts : List Post
  loading : Bool
  currentPage : Int
deriving Repr, DecidableEq

/-- Initial state of PostsProvider: useState([]), useState(true),
useState(1). -/
def initialState : AppState :=
  { posts := [], loading := true, currentPage := 1 }

/-- Fixed page size, the perPage constant 6 of PostsGrid. -/
def pageSize : Nat := 6

/-- Derived total page count, Math.max(1, Math.ceil(length / 6)) as
computed in Pagination (line 112), PostsGrid (line 138) and deletePost
(line 70). For a natural length, Math.ceil(n / 6) is (n + 5) / 6 in
truncated natural division. -/
def totalPages (posts : List Post) : Nat :=
  max 1 ((posts.length + 5) / 6)

/-- The deletePost operation (lines 67-74): filter the posts by id
with strict inequality, recompute the total page count of the new
list, and clamp the cursor from above with Math.min. -/
def deletePost (id : Int) (s : AppState) : AppState :=
  let next := s.posts.filter (fun p => p.id != id)
  { s with
      posts := next
      currentPage := min s.currentPage (totalPages next : Int) }

/-- The goToPage operation: the page-number buttons call
setCurrentPage(p) directly (line 126); the stored cursor is the raw
argument, with no clamp in the store. -/
def setCurrentPage (n : Int) (s : AppState) : AppState :=
  { s with currentPage := n }

/-- The goPrev operation (line 117): Math.max(1, p - 1). -/
def goPrev (s : AppState) : AppState :=
  { s with currentPage := max 1 (s.currentPage - 1) }

/-- The goNext operation (line 118): Math.min(totalPages, p + 1),
with totalPages computed from the current posts list. -/
def goNext (s : AppState) : AppState :=
  { s with currentPage := min (totalPages s.posts : Int) (s.currentPage + 1) }

/-- The load step of the fetch effect (lines 40-65): on success
setPosts(items) with the fetched items, on failure setPosts([]), and
in both branches setLoading(false). The effect never writes
currentPage. The caller passes the empty list on failure. -/
def load (items : List Post) (s : AppState) : AppState :=
  { s with posts := items, loading := false }

/-- Effective page of the calculator, PostsGrid line 139:
Math.min(currentPage, totalPages). -/
def effectivePage (posts : List Post) (cursor : Int) : Int :=
  min cursor (totalPages posts : Int)

/-- JavaScript Array.prototype.slice(start, stop) on lists: negative
indices count from the end, then both are clamped to [0, length] and
the elements from the lower to the upper index are returned. -/
def jsSlice (l : List Post) (start stop : Int) : List Post :=
  let len : Int := l.length
  let a := if start < 0 then max (len + start) 0 else min start len
  let b := if stop < 0 then max (len + stop) 0 else min stop len
  (l.drop a.toNat).take (b - a).toNat

/-- Visible slice of the calculator, PostsGrid lines 139-141:
start = (page - 1) * 6 and posts.slice(start, start + 6). -/
def visibleSlice (posts : List Post) (cursor : Int) : List Post :=
  let start := (effectivePage posts cursor - 1) * 6
  jsSlice posts start (start + 6)

/-- Cursor invariant of the spec: the cursor lies between 1 and the
derived total page count. -/
def cursorInvariant (s : AppState) : Prop :=
  1 ≤ s.currentPage ∧ s.currentPage ≤ (totalPages s.posts : Int)

/-- Sample post used for concrete witnesses. -/
def examplePost : Post :=
  { id := 1, title := "t", body := "b", img := "i" }

/-- Second sample post with a distinct id. -/
def examplePost2 : Post :=
  { id := 2, title := "t2", body := "b2", img := "i2" }

/-- Concrete loaded state with one post on page 1, for witnesses. -/
def stateOne : AppState :=
  { posts := [examplePost], loading := false, currentPage := 1 }

/-- Concrete loaded state with two posts on page 1, for witnesses. -/
def stateTwo : AppState :=
  { posts := [examplePost, examplePost2], loading := false, currentPage := 1 }

/-- Concrete unloaded state whose cursor is 2, for witnesses. -/
def stateCursorTwo : AppState :=
  { posts := [], loading := true, currentPage := 2 }

/-- Concrete loaded state with seven posts on page 2, for witnesses. -/
def stateSeven : AppState :=
  { posts := [examplePost, examplePost2,
      { id := 3, title := "", body := "", img := "" },
      { id := 4, title := "", body := "", img := "" },
      { id := 5, title := "", body := "", img := "" },
      { id := 6, title := "", body := "", img := "" },
      { id := 7, title := "", body := "", img := "" }],
    loading := false, currentPage := 2 }

/-! ## Helper lemmas -/

/-- The derived total page count is always at least 1. -/
lemma one_le_totalPages (posts : List Post) : 1 ≤ totalPages posts := by
  simp [totalPages]

/-- Integer form of the lower bound on the total page count. -/
lemma one_le_totalPages_int (posts : List Post) :
    (1 : Int) ≤ (totalPages posts : Int) := by
  exact_mod_cast one_le_totalPages posts

/-- Posts after deletePost are the filtered list. -/
lemma deletePost_posts (id : Int) (s : AppState) :
    (deletePost id s).posts = s.posts.filter (fun p => p.id != id) := rfl

/-- Cursor after deletePost is the old cursor clamped from above by
the new total page count. -/
lemma deletePost_currentPage (id : Int) (s : AppState) :
    (deletePost id s).currentPage =
      min s.currentPage
        (totalPages (s.posts.filter (fun p => p.id != id)) : Int) := rfl

/-! ## Theorems for the claims -/

/-- C1 counterexample: goToPage(0) from the initial state stores
cursor 0, and the calculator read gives effectivePage = min 0 1 = 0,
which is below 1, so out-of-range requests are not clamped into
[1, totalPages]. -/
theorem goToPage_claim_false_at_zero :
    ¬ (1 ≤ effectivePage (setCurrentPage 0 initialState).posts
          (setCurrentPage 0 initialState).currentPage) := by
  decide

/-- C1 (amended): for every integer n at least 1, goToPage(n) followed
by the calculator read yields an effectivePage in [1, totalPages];
requests above totalPages are clamped down to totalPages. The store
itself keeps the raw value n, and values below 1 pass through the
calculator unclamped. -/
theorem goToPage_effectivePage_in_range (s : AppState) (n : Int)
    (h : 1 ≤ n) :
    1 ≤ effectivePage (setCurrentPage n s).posts
          (setCurrentPage n s).currentPage ∧
    effectivePage (setCurrentPage n s).posts
          (setCurrentPage n s).currentPage ≤ (totalPages s.posts : Int) ∧
    ((totalPages s.posts : Int) < n →
      effectivePage (setCurrentPage n s).posts
          (setCurrentPage n s).currentPage = (totalPages s.posts : Int)) := by
  refine ⟨le_min h (one_le_totalPages_int s.posts), min_le_right _ _, ?_⟩
  intro hlt
  simp [setCurrentPage, effectivePage]
  omega

/-- C1 witness: goToPage(5) on the initial (empty) state. -/
theorem goToPage_effectivePage_in_range_witness :
    1 ≤ effectivePage (setCurrentPage 5 initialState).posts
          (setCurrentPage 5 initialState).currentPage ∧
    effectivePage (setCurrentPage 5 initialState).posts
          (setCurrentPage 5 initialState).currentPage ≤
        (totalPages initialState.posts : Int) ∧
    ((totalPages initialState.posts : Int) < 5 →
      effectivePage (setCurrentPage 5 initialState).posts
          (setCurrentPage 5 initialState).currentPage =
        (totalPages initialState.posts : Int)) :=
  goToPage_effectivePage_in_range initialState 5 (by decide)

/-- C4: the derived total page count is max(1, ceil(length / 6)),
stated with the ceiling division of Mathlib; it is 1 for the empty
list and 3 for any 18-item list. -/
theorem totalPages_spec :
    (∀ posts : List Post, totalPages posts = max 1 (posts.length ⌈/⌉ 6)) ∧
    totalPages [] = 1 ∧
    (∀ posts : List Post, posts.length = 18 → totalPages posts = 3) := by
  refine ⟨fun posts => ?_, rfl, fun posts h => ?_⟩
  · rw [Nat.ceilDiv_eq_add_pred_div]
    unfold totalPages
    omega
  · simp [totalPages, h]

/-- C4 witness: a concrete 18-item list has 3 pages. -/
theorem totalPages_spec_witness :
    totalPages (List.replicate 18 examplePost) = 3 :=
  totalPages_spec.2.2 (List.replicate 18 examplePost) (by simp)

/-- C10: deletePost never increases the cursor; the new cursor is the
minimum of the old cursor and the new total page count. -/
theorem deletePost_cursor_monotone (s : AppState) (id : Int)
    (h : 1 ≤ s.currentPage) :
    (deletePost id s).currentPage ≤ s.currentPage := by
  rw [deletePost_currentPage]
  exact min_le_left _ _

/-- C10 witness: deleting the only post from page 1. -/
theorem deletePost_cursor_monotone_witness :
    (deletePost 1 stateOne).currentPage ≤ stateOne.currentPage :=
  deletePost_cursor_monotone stateOne 1 (by decide)

/-- C2: for a state whose cursor satisfies the page invariant,
deletePost removes exactly the posts with the given id and the new
cursor satisfies the invariant for the shrunken list. -/
theorem deletePost_cursor_invariant (s : AppState) (id : Int)
    (h1 : 1 ≤ s.currentPage)
    (h2 : s.currentPage ≤ (totalPages s.posts : Int)) :
    (deletePost id s).posts = s.posts.filter (fun p => p.id != id) ∧
    1 ≤ (deletePost id s).currentPage ∧
    (deletePost id s).currentPage ≤
      (totalPages (deletePost id s).posts : Int) := by
  refine ⟨rfl, ?_, ?_⟩
  · rw [deletePost_currentPage]
    exact le_min h1 (one_le_totalPages_int _)
  · rw [deletePost_currentPage, deletePost_posts]
    exact min_le_right _ _

/-- C2 witness: deleting from a two-post state on page 1. -/
theorem deletePost_cursor_invariant_witness :
    (deletePost 1 stateTwo).posts =
      stateTwo.posts.filter (fun p => p.id != 1) ∧
    1 ≤ (deletePost 1 stateTwo).currentPage ∧
    (deletePost 1 stateTwo).currentPage ≤
      (totalPages (deletePost 1 stateTwo).posts : Int) :=
  deletePost_cursor_invariant stateTwo 1 (by decide) (by decide)

/-- C5: when no post carries the given id, deletePost changes nothing:
the filter keeps every post and the clamp keeps the in-range cursor. -/
theorem deletePost_absent_noop (s : AppState) (id : Int)
    (h1 : 1 ≤ s.currentPage)
    (h2 : s.currentPage ≤ (totalPages s.posts : Int))
    (habs : ∀ p ∈ s.posts, p.id ≠ id) :
    deletePost id s = s := by
  have hfilter : s.posts.filter (fun p => p.id != id) = s.posts := by
    rw [List.filter_eq_self]
    intro p hp
    simpa using habs p hp
  have h3 : deletePost id s =
      { s with
        posts := s.posts.filter (fun p => p.id != id)
        currentPage := min s.currentPage
          (totalPages (s.posts.filter (fun p => p.id != id)) : Int) } := rfl
  rw [h3, hfilter, min_eq_left h2]

/-- C5 witness: deleting the absent id 99 from a one-post state. -/
theorem deletePost_absent_noop_witness :
    deletePost 99 stateOne = stateOne :=
  deletePost_absent_noop stateOne 99 (by decide) (by decide) (by decide)

/-- C6: deletePost is idempotent; the second call filters an already
filtered list and clamps an already clamped cursor, changing nothing. -/
theorem deletePost_idempotent (s : AppState) (id : Int)
    (h1 : 1 ≤ s.currentPage)
    (h2 : s.currentPage ≤ (totalPages s.posts : Int)) :
    deletePost id (deletePost id s) = deletePost id s := by
  have hfilter : ((s.posts.filter (fun p => p.id != id)).filter
      (fun p => p.id != id)) = s.posts.filter (fun p => p.id != id) := by
    rw [List.filter_eq_self]
    intro p hp
    exact (List.mem_filter.mp hp).2
  have h3 : deletePost id (deletePost id s) =
      { deletePost id s with
        posts := (s.posts.filter (fun p => p.id != id)).filter
          (fun p => p.id != id)
        currentPage := min (deletePost id s).currentPage
          (totalPages ((s.posts.filter (fun p => p.id != id)).filter
            (fun p => p.id != id)) : Int) } := rfl
  have hc : min (deletePost id s).currentPage
      (totalPages (s.posts.filter (fun p => p.id != id)) : Int) =
      (deletePost id s).currentPage := by
    rw [deletePost_currentPage]
    exact min_eq_left (min_le_right _ _)
  rw [h3, hfilter, hc]
  exact rfl

/-- C6 witness: deleting id 1 twice from a two-post state. -/
theorem deletePost_idempotent_witness :
    deletePost 1 (deletePost 1 stateTwo) = deletePost 1 stateTwo :=
  deletePost_idempotent stateTwo 1 (by decide) (by decide)

/-- C7: goNext adds one to the cursor clamped from above by the total
page count and is a no-op at the last page; goPrev subtracts one
clamped from below by 1 and is a no-op at page 1; both keep the cursor
in range, so neither can fail at a boundary. -/
theorem goNext_goPrev_clamped (s : AppState)
    (h1 : 1 ≤ s.currentPage)
    (h2 : s.currentPage ≤ (totalPages s.posts : Int)) :
    (goNext s).currentPage =
      min (totalPages s.posts : Int) (s.currentPage + 1) ∧
    (s.currentPage = (totalPages s.posts : Int) → goNext s = s) ∧
    (goPrev s).currentPage = max 1 (s.currentPage - 1) ∧
    (s.currentPage = 1 → goPrev s = s) ∧
    1 ≤ (goNext s).currentPage ∧
    (goNext s).currentPage ≤ (totalPages s.posts : Int) ∧
    1 ≤ (goPrev s).currentPage ∧
    (goPrev s).currentPage ≤ (totalPages s.posts : Int) := by
  refine ⟨rfl, ?_, rfl, ?_, ?_, ?_, ?_, ?_⟩
  · intro he
    have h4 : goNext s = { s with
        currentPage := min (totalPages s.posts : Int) (s.currentPage + 1) } := rfl
    have h5 : min (totalPages s.posts : Int) (s.currentPage + 1) =
        s.currentPage := by omega
    rw [h4, h5]
  · intro he
    have h4 : goPrev s =
        { s with currentPage := max 1 (s.currentPage - 1) } := rfl
    have h5 : max 1 (s.currentPage - 1) = s.currentPage := by omega
    rw [h4, h5]
  · exact le_min (one_le_totalPages_int _) (by omega)
  · exact min_le_left _ _
  · exact le_max_left _ _
  · exact max_le (one_le_totalPages_int _) (by omega)

/-- C7 witness: a one-post state on page 1, where page 1 is also the
last page, so both boundary no-ops fire. -/
theorem goNext_goPrev_clamped_witness :
    (goNext stateOne).currentPage =
      min (totalPages stateOne.posts : Int) (stateOne.currentPage + 1) ∧
    (stateOne.currentPage = (totalPages stateOne.posts : Int) →
      goNext stateOne = stateOne) ∧
    (goPrev stateOne).currentPage = max 1 (stateOne.currentPage - 1) ∧
    (stateOne.currentPage = 1 → goPrev stateOne = stateOne) ∧
    1 ≤ (goNext stateOne).currentPage ∧
    (goNext stateOne).currentPage ≤ (totalPages stateOne.posts : Int) ∧
    1 ≤ (goPrev stateOne).currentPage ∧
    (goPrev stateOne).currentPage ≤ (totalPages stateOne.posts : Int) :=
  goNext_goPrev_clamped stateOne (by decide) (by decide)

/-- C8 counterexample: load from a state whose cursor is 2 leaves the
cursor at 2, so load does not reset the cursor to 1. -/
theorem load_does_not_reset_cursor :
    (load [examplePost] stateCursorTwo).currentPage = 2 ∧
    (2 : Int) ≠ 1 := by
  decide

/-- C8 (amended): load replaces the posts wholesale with the given
list (the empty list on fetch failure) and clears the loading flag,
but leaves the cursor at its prior value; the cursor is 1 after the
single startup load only because the initial cursor is 1. -/
theorem load_replaces_posts_keeps_cursor :
    (∀ (items : List Post) (s : AppState),
      (load items s).posts = items ∧
      (load items s).loading = false ∧
      (load items s).currentPage = s.currentPage) ∧
    (∀ items : List Post, (load items initialState).currentPage = 1) := by
  exact ⟨fun items s => ⟨rfl, rfl, rfl⟩, fun items => rfl⟩

/-- C9: deletePost keeps a subsequence of the posts in their original
order and preserves pairwise distinctness of ids, and the navigation
operations never touch the posts list. -/
theorem deletePost_preserves_order_uniqueness (s : AppState) (id n : Int)
    (huniq : s.posts.Pairwise (fun a b => a.id ≠ b.id)) :
    (deletePost id s).posts = s.posts.filter (fun p => p.id != id) ∧
    List.Sublist (deletePost id s).posts s.posts ∧
    (deletePost id s).posts.Pairwise (fun a b => a.id ≠ b.id) ∧
    (setCurrentPage n s).posts = s.posts ∧
    (goNext s).posts = s.posts ∧
    (goPrev s).posts = s.posts := by
  refine ⟨rfl, List.filter_sublist _, ?_, rfl, rfl, rfl⟩
  exact List.Pairwise.sublist (List.filter_sublist _) huniq

/-- C9 witness: a two-post state with distinct ids. -/
theorem deletePost_preserves_order_uniqueness_witness :
    (deletePost 1 stateTwo).posts =
      stateTwo.posts.filter (fun p => p.id != 1) ∧
    List.Sublist (deletePost 1 stateTwo).posts stateTwo.posts ∧
    (deletePost 1 stateTwo).posts.Pairwise (fun a b => a.id ≠ b.id) ∧
    (setCurrentPage 7 stateTwo).posts = stateTwo.posts ∧
    (goNext stateTwo).posts = stateTwo.posts ∧
    (goPrev stateTwo).posts = stateTwo.posts :=
  deletePost_preserves_order_uniqueness stateTwo 1 7 (by decide)

/-- With an in-range cursor, the calculator slice is drop then take:
the clamp of the slice bounds to [0, length] inside the JavaScript
slice is inert because the start index is already in range. -/
lemma visibleSlice_in_range (posts : List Post) (c : Int)
    (h1 : 1 ≤ c) (h2 : c ≤ (totalPages posts : Int)) :
    visibleSlice posts c = (posts.drop ((c - 1).toNat * 6)).take 6 := by
  have h2a : c ≤ ((max 1 ((posts.length + 5) / 6) : Nat) : Int) := h2
  have hstart0 : 0 ≤ (c - 1) * 6 := by omega
  have hstartn : (c - 1) * 6 ≤ (posts.length : Int) := by omega
  simp only [visibleSlice, effectivePage, jsSlice]
  rw [min_eq_left h2]
  rw [if_neg (by omega), if_neg (by omega)]
  have hd : (min ((c - 1) * 6) (posts.length : Int)).toNat =
      (c - 1).toNat * 6 := by omega
  rw [hd]
  rw [List.take_eq_take]
  rw [List.length_drop]
  omega

/-- C3 counterexample: the empty list with the in-range cursor 1 is
its own last page, its length 0 is evenly divisible by 6, yet the
visible slice is empty rather than of length 6 as the claim requires
for the evenly-divisible case. -/
theorem visibleSlice_claim_false_on_empty :
    1 ≤ (1 : Int) ∧ (1 : Int) ≤ (totalPages ([] : List Post) : Int) ∧
    ([] : List Post).length % 6 = 0 ∧
    (visibleSlice ([] : List Post) 1).length = 0 ∧
    (visibleSlice ([] : List Post) 1).length ≠ 6 := by
  decide

/-- C3 (amended): for an in-range cursor the visible slice is the
contiguous window of 6 posts starting at (effectivePage - 1) * 6; its
length is exactly 6 on every page before the last, and on the last
page of a nonempty list it is length mod 6, or 6 when the length is
evenly divisible; for the empty list the slice is empty. -/
theorem visibleSlice_spec (posts : List Post) (c : Int)
    (h1 : 1 ≤ c) (h2 : c ≤ (totalPages posts : Int)) :
    visibleSlice posts c = (posts.drop ((c - 1).toNat * 6)).take 6 ∧
    (c < (totalPages posts : Int) → (visibleSlice posts c).length = 6) ∧
    (c = (totalPages posts : Int) → posts ≠ [] →
      (visibleSlice posts c).length =
        if posts.length % 6 = 0 then 6 else posts.length % 6) ∧
    (posts = [] → visibleSlice posts c = []) := by
  have h2a : c ≤ ((max 1 ((posts.length + 5) / 6) : Nat) : Int) := h2
  have hs := visibleSlice_in_range posts c h1 h2
  have hlen : (visibleSlice posts c).length =
      min 6 (posts.length - (c - 1).toNat * 6) := by
    rw [hs, List.length_take, List.length_drop]
  refine ⟨hs, ?_, ?_, ?_⟩
  · intro hlt
    have hlt2 : c < ((max 1 ((posts.length + 5) / 6) : Nat) : Int) := hlt
    rw [hlen]
    omega
  · intro he hne
    have hn0 : posts.length ≠ 0 := fun h0 => hne (List.length_eq_zero.mp h0)
    have he2 : c = ((max 1 ((posts.length + 5) / 6) : Nat) : Int) := he
    rw [hlen]
    by_cases hr : posts.length % 6 = 0
    · rw [if_pos hr]
      omega
    · rw [if_neg hr]
      omega
  · intro hnil
    subst hnil
    have hc1 : c = 1 := by
      simp only [totalPages, List.length_nil] at h2
      omega
    subst hc1
    decide

/-- C3 witness: seven posts with cursor 2; page 1 is full with 6
posts and last page 2 holds the single remaining post, 7 mod 6. -/
theorem visibleSlice_spec_witness :
    visibleSlice stateSeven.posts 2 =
      (stateSeven.posts.drop (((2 : Int) - 1).toNat * 6)).take 6 ∧
    ((2 : Int) < (totalPages stateSeven.posts : Int) →
      (visibleSlice stateSeven.posts 2).length = 6) ∧
    ((2 : Int) = (totalPages stateSeven.posts : Int) →
      stateSeven.posts ≠ [] →
      (visibleSlice stateSeven.posts 2).length =
        if stateSeven.posts.length % 6 = 0 then 6
        else stateSeven.posts.length % 6) ∧
    (stateSeven.posts = [] → visibleSlice stateSeven.posts 2 = []) :=
  visibleSlice_spec stateSeven.posts 2 (by decide) (by decide)
